import Mathlib

/-!
Verification development for the centerback.ai ingestion/detection backend.

The Lean definitions below are a shallow embedding of the Python source:

* `DetectionService.record_classification` embeds
  `backend/app/services/detection_service.py` (severity thresholds, alert
  dedup/merge policy, canary shadow evaluation, notification dispatch).
* `ingest_flows` and friends embed `backend/app/routes/ingest.py`
  (backpressure, idempotency keys, duplicate skipping, manual retry).
* `IngestionPipeline._process_batch` embeds
  `backend/app/services/ingest_pipeline.py` (claim-and-process loop,
  per-message failure isolation, dead-letter routing).
* `CanaryService.enable` embeds `backend/app/services/canary_service.py`.
* `DriftService.get_drift_report` embeds
  `backend/app/services/drift_service.py` (the Jensen-Shannon score itself
  is real-valued floating point in the source and is abstracted as a
  function parameter; the claims settled here concern the integer-side
  window arithmetic and the insufficient-data branch).

Timestamps are modelled as integers (minutes), confidences as rationals,
database tables as lists of rows, and the non-deterministic or external
pieces (random canary sampling, sha256 digests, the classifier, the
filesystem) as explicit function/value parameters.
-/

namespace Centerback

/-! ## Data model (backend/app/models/entities.py) -/

inductive AlertSeverity
  | low
  | medium
  | high
  | critical
deriving DecidableEq, Repr

inductive AlertStatus
  | new
  | triaged
  | investigating
  | resolved
  | false_positive
deriving DecidableEq, Repr

inductive QueueStatus
  | queued
  | processing
  | done
  | failed
  | dead_letter
deriving DecidableEq, Repr

structure ClassificationEvent where
  id : Nat
  source : String
  source_ip : String
  destination_ip : String
  model_version : Option String
  prediction : String
  confidence : ℚ
  is_threat : Bool
  features : Option (List ℚ)
  created_at : Int
deriving DecidableEq, Repr

structure Alert where
  id : Nat
  event_id : Option Nat
  dedup_key : String
  type : String
  severity : AlertSeverity
  source_ip : String
  destination_ip : String
  confidence : ℚ
  status : AlertStatus
  created_at : Int
  updated_at : Int
deriving DecidableEq, Repr

structure ModelEvaluationEvent where
  id : Nat
  source : String
  production_model_version : Option String
  canary_model_version : Option String
  production_prediction : String
  canary_prediction : String
  production_confidence : ℚ
  canary_confidence : ℚ
  diverged : Bool
deriving DecidableEq, Repr

/-- Result of `canary_service.evaluate(features)`. -/
structure CanaryResult where
  prediction : String
  confidence : ℚ
  model_version : Option String
deriving DecidableEq, Repr

/-- The payload handed to `notification_service.notify_alert` when a new
alert is created. -/
structure AlertNotification where
  id : Nat
  event_id : Option Nat
  type : String
  severity : AlertSeverity
  source_ip : String
  destination_ip : String
  confidence : ℚ
  status : AlertStatus
  model_version : Option String
  source : String
deriving DecidableEq, Repr

/-- The persistent state touched by the detection engine: the
classification_events, alerts and model_evaluation_events tables, plus the
stream of fired notifications.  `nextId` stands in for fresh row ids. -/
structure DetectionState where
  nextId : Nat
  events : List ClassificationEvent
  alerts : List Alert
  evals : List ModelEvaluationEvent
  notifications : List AlertNotification
deriving Repr

/-! ## DetectionService (backend/app/services/detection_service.py) -/

namespace DetectionService

/-- `DetectionService._severity`: fixed confidence thresholds. -/
def _severity (confidence : ℚ) : AlertSeverity :=
  if confidence ≥ 0.95 then AlertSeverity.critical
  else if confidence ≥ 0.90 then AlertSeverity.high
  else if confidence ≥ 0.80 then AlertSeverity.medium
  else AlertSeverity.low

/-- Statuses treated as "open" by the dedup lookup in
`record_classification`. -/
def isOpenStatus : AlertStatus → Bool
  | AlertStatus.new => true
  | AlertStatus.triaged => true
  | AlertStatus.investigating => true
  | _ => false

/-- The WHERE clause of the dedup lookup: same dedup key, created within
the dedup window, status open. -/
def openMatch (key : String) (cutoff : Int) (a : Alert) : Bool :=
  a.dedup_key == key && decide (cutoff ≤ a.created_at) && isOpenStatus a.status

/-- `ORDER BY created_at DESC` + `scalar()`: of two candidates the later
created one wins (ties keep the earlier row). -/
def moreRecent (a b : Alert) : Alert :=
  if a.created_at < b.created_at then b else a

/-- The dedup lookup of `record_classification`: the most recently created
open alert matching the dedup key inside the window, if any. -/
def findOpenAlert (alerts : List Alert) (key : String) (cutoff : Int) : Option Alert :=
  match alerts.filter (openMatch key cutoff) with
  | [] => none
  | a :: rest => some (rest.foldl moreRecent a)

/-- In-place ORM mutation of the row with the given id. -/
def replaceAlert (i : Nat) (f : Alert → Alert) (alerts : List Alert) : List Alert :=
  alerts.map fun a => if a.id = i then f a else a

/-- The merge applied to a found open alert: overwrite confidence and
recompute severity only when the new confidence is strictly higher, always
refresh `updated_at`. -/
def mergeUpdate (confidence : ℚ) (now : Int) (a : Alert) : Alert :=
  let a1 :=
    if confidence > a.confidence then
      { a with confidence := confidence, severity := _severity confidence }
    else a
  { a1 with updated_at := now }

/-- The canary shadow-evaluation block of `record_classification`
(detection_service.py lines 57-71).  `sample` is the outcome of the random
draw in `canary_service.should_sample()` and `canaryResult` the value of
`canary_service.evaluate(features)`, both passed in explicitly. -/
def canaryStep (sample : Bool) (canaryResult : Option CanaryResult)
    (source : String) (model_version : Option String) (prediction : String)
    (confidence : ℚ) (features : Option (List ℚ)) (st : DetectionState) :
    DetectionState :=
  if features.isSome && sample then
    match canaryResult with
    | some r =>
        { st with
          nextId := st.nextId + 1
          evals := st.evals ++
            [{ id := st.nextId
               source := source
               production_model_version := model_version
               canary_model_version := r.model_version
               production_prediction := prediction
               canary_prediction := r.prediction
               production_confidence := confidence
               canary_confidence := r.confidence
               diverged := r.prediction != prediction }] }
    | none => st
  else st

/-- `DetectionService.record_classification`.  `dedupWindow` is
`settings.alert_dedup_window_minutes`, `now` the wall clock at the call.
Returns the persisted event, the returned alert (if a threat) and the
updated state. -/
def record_classification (dedupWindow now : Int)
    (sample : Bool) (canaryResult : Option CanaryResult)
    (prediction : String) (confidence : ℚ) (is_threat : Bool)
    (source source_ip destination_ip : String)
    (features : Option (List ℚ)) (model_version : Option String)
    (st : DetectionState) :
    ClassificationEvent × Option Alert × DetectionState :=
  let event : ClassificationEvent :=
    { id := st.nextId
      source := source
      source_ip := source_ip
      destination_ip := destination_ip
      model_version := model_version
      prediction := prediction
      confidence := confidence
      is_threat := is_threat
      features := features
      created_at := now }
  let st1 : DetectionState :=
    { st with nextId := st.nextId + 1, events := st.events ++ [event] }
  let st2 : DetectionState :=
    canaryStep sample canaryResult source model_version prediction confidence features st1
  if !is_threat then (event, none, st2)
  else
    let dedup_key := prediction ++ ":" ++ source_ip ++ ":" ++ destination_ip
    let cutoff := now - dedupWindow
    match findOpenAlert st2.alerts dedup_key cutoff with
    | some existing =>
        (event, some (mergeUpdate confidence now existing),
          { st2 with alerts := replaceAlert existing.id (mergeUpdate confidence now) st2.alerts })
    | none =>
        let alert : Alert :=
          { id := st2.nextId
            event_id := some event.id
            dedup_key := dedup_key
            type := prediction
            severity := _severity confidence
            source_ip := source_ip
            destination_ip := destination_ip
            confidence := confidence
            status := AlertStatus.new
            created_at := now
            updated_at := now }
        let notif : AlertNotification :=
          { id := alert.id
            event_id := some event.id
            type := alert.type
            severity := alert.severity
            source_ip := alert.source_ip
            destination_ip := alert.destination_ip
            confidence := alert.confidence
            status := alert.status
            model_version := model_version
            source := source }
        (event, some alert,
          { st2 with
            nextId := st2.nextId + 1
            alerts := st2.alerts ++ [alert]
            notifications := st2.notifications ++ [notif] })

end DetectionService

/-! ## Ingestion routes (backend/app/routes/ingest.py) -/

/-- A validated `FlowPayload` request body (features are pydantic-checked
to have length 78; that bound is not needed by the claims below). -/
structure FlowPayload where
  flow_id : Option String
  source_ip : String
  destination_ip : String
  features : List ℚ
deriving DecidableEq, Repr

/-- A row of the ingestion_messages table.  The JSON payload column is
kept as the originating flow (plus the source, stored alongside). -/
structure IngestMsg where
  id : Nat
  source : String
  idempotency_key : String
  payload : FlowPayload
  status : QueueStatus
  attempts : Nat
  last_error : Option String
  created_at : Int
deriving DecidableEq, Repr

/-- `_flow_idempotency_key`.  `digest` abstracts
`sha256(canonical_json({source_ip, destination_ip, features}))`; Python
truthiness makes an empty-string `flow_id` fall through to the digest. -/
def _flow_idempotency_key (digest : String → String → List ℚ → String)
    (source : String) (flow : FlowPayload) : String :=
  match flow.flow_id with
  | some fid =>
      if fid = "" then source ++ ":" ++ digest flow.source_ip flow.destination_ip flow.features
      else source ++ ":" ++ fid
  | none => source ++ ":" ++ digest flow.source_ip flow.destination_ip flow.features

/-- Statuses counted by the backpressure depth query
(queued/processing/failed). -/
def depthStatus : QueueStatus → Bool
  | QueueStatus.queued => true
  | QueueStatus.processing => true
  | QueueStatus.failed => true
  | _ => false

/-- The live queue depth read at the top of `ingest_flows`. -/
def queueDepth (msgs : List IngestMsg) : Nat :=
  (msgs.filter fun m => depthStatus m.status).length

/-- The `existing_keys` query: idempotency keys of messages from the same
source created within the idempotency window (every modelled row has a
key, matching the `is_not(None)` filter). -/
def existingKeys (source : String) (cutoff : Int) (msgs : List IngestMsg) : List String :=
  (msgs.filter fun m => m.source == source && decide (cutoff ≤ m.created_at)).map
    (fun m => m.idempotency_key)

/-- Result of the enqueue loop of `ingest_flows`. -/
structure EnqueueResult where
  msgs : List IngestMsg
  queued : Nat
  dups : Nat
  nextId : Nat
deriving Repr

/-- The `for flow in payload.flows` loop: skip flows whose key is already
known (growing the in-memory key set), persist the rest as queued
messages with zero attempts. -/
def enqueueFlows (digest : String → String → List ℚ → String)
    (source : String) (now : Int) :
    List FlowPayload → List String → Nat → EnqueueResult
  | [], _, nid => { msgs := [], queued := 0, dups := 0, nextId := nid }
  | f :: rest, keys, nid =>
      let k := _flow_idempotency_key digest source f
      if k ∈ keys then
        let r := enqueueFlows digest source now rest keys nid
        { r with dups := r.dups + 1 }
      else
        let msg : IngestMsg :=
          { id := nid
            source := source
            idempotency_key := k
            payload := f
            status := QueueStatus.queued
            attempts := 0
            last_error := none
            created_at := now }
        let r := enqueueFlows digest source now rest (k :: keys) (nid + 1)
        { msgs := msg :: r.msgs, queued := r.queued + 1, dups := r.dups, nextId := r.nextId }

/-- The ingestion_messages table plus a fresh-id supply. -/
structure IngestState where
  messages : List IngestMsg
  nextId : Nat
deriving Repr

/-- The two HTTP 429 rejections of `ingest_flows`. -/
inductive IngestReject
  | depth_exceeded
  | capacity_exceeded
deriving DecidableEq, Repr

/-- The response data of a successful `ingest_flows` call. -/
structure IngestResult where
  queued : Nat
  duplicates_skipped : Nat
  queue_depth : Nat
deriving DecidableEq, Repr

/-- `ingest_flows` (backend/app/routes/ingest.py).  `maxDepth` is
`settings.ingest_max_queue_depth`, `idemWindow`
`settings.ingest_idempotency_window_minutes`.  A rejection raises before
anything is added, so the error branch carries no state. -/
def ingest_flows (digest : String → String → List ℚ → String)
    (maxDepth : Nat) (idemWindow now : Int)
    (source : String) (flows : List FlowPayload) (st : IngestState) :
    Except IngestReject (IngestResult × IngestState) :=
  let depth := queueDepth st.messages
  if maxDepth ≤ depth then Except.error IngestReject.depth_exceeded
  else if maxDepth < depth + flows.length then Except.error IngestReject.capacity_exceeded
  else
    let cutoff := now - idemWindow
    let keys := existingKeys source cutoff st.messages
    let r := enqueueFlows digest source now flows keys st.nextId
    Except.ok
      ({ queued := r.queued, duplicates_skipped := r.dups, queue_depth := depth + r.queued },
       { messages := st.messages ++ r.msgs, nextId := r.nextId })

/-- Row lookup by id (`db.get(IngestionMessage, message_id)` /
`find?` over the table). -/
def getRow (msgs : List IngestMsg) (i : Nat) : Option IngestMsg :=
  msgs.find? fun m => m.id == i

/-- ORM-style in-place update of the row with the given id. -/
def applyById (i : Nat) (f : IngestMsg → IngestMsg) (msgs : List IngestMsg) : List IngestMsg :=
  msgs.map fun m => if m.id = i then f m else m

/-- `retry_dead_letter` (backend/app/routes/ingest.py lines 168-195):
reset to queued, clear last_error, zero attempts — for any found message,
whatever its status. -/
def retryReset (m : IngestMsg) : IngestMsg :=
  { m with status := QueueStatus.queued, last_error := none, attempts := 0 }

/-- The retry endpoint: 404 when the id is unknown, otherwise reset. -/
def retry_dead_letter (msgs : List IngestMsg) (i : Nat) : Except String (List IngestMsg) :=
  match getRow msgs i with
  | none => Except.error "Ingestion message not found"
  | some _ => Except.ok (applyById i retryReset msgs)

/-! ## IngestionPipeline (backend/app/services/ingest_pipeline.py)

The per-message work inside the `try` block (payload parsing, feature
validation, `classifier.predict_single`, `record_classification`) is
abstracted as `handle : IngestMsg → Except String Unit`; an `Except.error`
is a raised exception whose text becomes `last_error`. -/

namespace IngestionPipeline

/-- Statuses eligible for claiming (`status IN (queued, failed)`), used
both by the candidate SELECT and by the conditional claim UPDATE. -/
def claimable : QueueStatus → Bool
  | QueueStatus.queued => true
  | QueueStatus.failed => true
  | _ => false

/-- One claimed message's processing: the claim UPDATE has already set
status to processing and incremented attempts; then the `try` block runs
and the terminal status is written (done on success; on exception
dead_letter when the incremented attempts reached `max_attempts`, failed
otherwise, with `last_error` recorded). -/
def processClaimed (maxAttempts : Nat) (handle : IngestMsg → Except String Unit)
    (m : IngestMsg) : IngestMsg :=
  let m1 : IngestMsg := { m with status := QueueStatus.processing, attempts := m.attempts + 1 }
  match handle m1 with
  | Except.ok _ => { m1 with status := QueueStatus.done, last_error := none }
  | Except.error e =>
      { m1 with
        status := if maxAttempts ≤ m1.attempts then QueueStatus.dead_letter else QueueStatus.failed
        last_error := some e }

/-- The body of the `for message_id in candidate_ids` loop: re-read the
row, attempt the conditional claim (silently skipped when the status is no
longer claimable), then process. -/
def stepMsg (maxAttempts : Nat) (handle : IngestMsg → Except String Unit)
    (msgs : List IngestMsg) (i : Nat) : List IngestMsg :=
  match getRow msgs i with
  | none => msgs
  | some m =>
      if claimable m.status then applyById i (processClaimed maxAttempts handle) msgs
      else msgs

/-- Net effect of one loop iteration on the row it targets. -/
def stepOne (maxAttempts : Nat) (handle : IngestMsg → Except String Unit)
    (m : IngestMsg) : IngestMsg :=
  if claimable m.status then processClaimed maxAttempts handle m else m

/-- Insertion step for the `ORDER BY created_at` of the candidate query. -/
def insertByCreated (m : IngestMsg) : List IngestMsg → List IngestMsg
  | [] => [m]
  | x :: xs =>
      if m.created_at ≤ x.created_at then m :: x :: xs else x :: insertByCreated m xs

/-- Stable sort by created_at (oldest first). -/
def sortByCreated (msgs : List IngestMsg) : List IngestMsg :=
  msgs.foldr insertByCreated []

/-- The candidate SELECT: oldest-first claimable rows with
`attempts < max_attempts`, limited to the batch size. -/
def batchCandidates (maxAttempts batchSize : Nat) (msgs : List IngestMsg) : List Nat :=
  ((((sortByCreated msgs).filter fun m =>
      claimable m.status && decide (m.attempts < maxAttempts)).map
        (fun m => m.id)).take batchSize)

/-- `IngestionPipeline._process_batch`: claim and process each candidate
in turn (the returned processed count is omitted; only the table state
matters to the claims). -/
def _process_batch (maxAttempts batchSize : Nat)
    (handle : IngestMsg → Except String Unit) (msgs : List IngestMsg) : List IngestMsg :=
  (batchCandidates maxAttempts batchSize msgs).foldl (stepMsg maxAttempts handle) msgs

end IngestionPipeline

/-! ## CanaryService (backend/app/services/canary_service.py)

The joblib artifact dictionary is modelled as `CanaryArtifact` with
`Option` fields (the `.get(...)` lookups), the filesystem/loader as
`fs : String → Option (CanaryArtifact M E)` (`none` = path does not
exist), and `Path` resolution / `.stem` as string functions.  The model
object and label encoder types are parameters. -/

/-- A loaded joblib artifact: the three `.get` lookups of `enable`. -/
structure CanaryArtifact (M E : Type) where
  model : Option M
  label_encoder : Option E
  feature_names : Option (List String)

/-- The mutable canary configuration guarded by the service lock. -/
structure CanaryState (M E : Type) where
  enabled : Bool
  traffic_percent : Int
  model_path : Option String
  model : Option M
  label_encoder : Option E
  feature_names : Option (List String)
  version : Option String

namespace CanaryService

/-- `CanaryService.enable`: resolve the path, require the artifact to
exist and to carry model + label_encoder + feature_names, then (and only
then) overwrite every configuration field under the lock.  The first
component of the result is the configuration after the call; a raise
leaves it untouched. -/
def enable {M E : Type} (fs : String → Option (CanaryArtifact M E))
    (resolve stem : String → String)
    (st : CanaryState M E) (model_path : String) (traffic_percent : Int) :
    CanaryState M E × Except String (CanaryState M E) :=
  let resolved := resolve model_path
  match fs resolved with
  | none => (st, Except.error ("Canary model artifact not found at " ++ resolved))
  | some data =>
      match data.model, data.label_encoder, data.feature_names with
      | some model, some enc, some names =>
          let st' : CanaryState M E :=
            { enabled := true
              traffic_percent := max 1 (min 100 traffic_percent)
              model_path := some resolved
              model := some model
              label_encoder := some enc
              feature_names := some names
              version := some (stem resolved) }
          (st', Except.ok st')
      | _, _, _ => (st, Except.error "Invalid canary model artifact format")

/-- `CanaryService.disable`: clear every field under the lock. -/
def disable {M E : Type} (_st : CanaryState M E) : CanaryState M E :=
  { enabled := false
    traffic_percent := 0
    model_path := none
    model := none
    label_encoder := none
    feature_names := none
    version := none }

end CanaryService

/-! ## DriftService (backend/app/services/drift_service.py) -/

namespace DriftService

/-- `DriftService._distribution`: empirical label distribution. -/
def _distribution (values : List String) : List (String × ℚ) :=
  if values.length = 0 then []
  else values.dedup.map fun label =>
    (label, ((values.count label : ℚ) / (values.length : ℚ)))

/-- The drift report dictionary.  The insufficient-data branch carries
only its five keys; absent keys are `none`. -/
structure DriftReport where
  status : String
  window_events : Option Int
  threshold : Option ℚ
  required_events : Option Int
  available_events : Option Int
  prediction_js_divergence : Option ℚ
  canary_divergence_rate : Option ℚ
  current_distribution : Option (List (String × ℚ))
  baseline_distribution : Option (List (String × ℚ))
deriving DecidableEq, Repr

/-- The window selection at the top of `get_drift_report`:
`window = window_events or settings.drift_window_events` (Python `or`
falls back on `None` and on `0`), then the floor of 50. -/
def effectiveWindow (defaultWindow : Int) (window_events : Option Int) : Int :=
  let window :=
    match window_events with
    | none => defaultWindow
    | some w => if w = 0 then defaultWindow else w
  if window < 50 then 50 else window

/-- `DriftService.get_drift_report`.  `history` is the
classification-event prediction column ordered newest first,
`canaryHistory` the model-evaluation `diverged` column ordered newest
first.  The real-valued Jensen-Shannon score and the 6-digit float
rounding are abstracted as the parameters `js` and `round6`; the
insufficient-data branch — the branch the claims are about — never touches
them. -/
def get_drift_report (js : List (String × ℚ) → List (String × ℚ) → ℚ)
    (round6 : ℚ → ℚ) (defaultWindow : Int) (threshold : ℚ)
    (history : List String) (canaryHistory : List Bool)
    (window_events : Option Int) : DriftReport :=
  let window := effectiveWindow defaultWindow window_events
  let predictions := history.take (window * 2).toNat
  if predictions.length < (window * 2).toNat then
    { status := "insufficient_data"
      window_events := none
      threshold := none
      required_events := some (window * 2)
      available_events := some (predictions.length : Int)
      prediction_js_divergence := none
      canary_divergence_rate := none
      current_distribution := none
      baseline_distribution := none }
  else
    let current := predictions.take window.toNat
    let baseline := (predictions.drop window.toNat).take window.toNat
    let current_dist := _distribution current
    let baseline_dist := _distribution baseline
    let js_score := js current_dist baseline_dist
    let canary_rows := canaryHistory.take window.toNat
    let canary_rate : Option ℚ :=
      if canary_rows.length = 0 then none
      else some (((canary_rows.filter id).length : ℚ) / (canary_rows.length : ℚ))
    let is_alert :=
      decide (threshold ≤ js_score) ||
        (match canary_rate with
         | some r => decide (threshold ≤ r)
         | none => false)
    { status := if is_alert then "alert" else "ok"
      window_events := some window
      threshold := some threshold
      required_events := none
      available_events := none
      prediction_js_divergence := some (round6 js_score)
      canary_divergence_rate := canary_rate.map round6
      current_distribution := some current_dist
      baseline_distribution := some baseline_dist }

end DriftService

/-! ## Alert status updates (backend/app/routes/alerts.py)

The repository snapshot's `backend/app/services/alerts_service.py` is a
development mock that does not define `update_status` (the routes and the
alert-lifecycle test call it).  The transition table below is therefore
modelled from the spec. -/

namespace AlertsService

/-- HTTP-visible failures of the status-update endpoint: 404 when the
alert id is unknown, 400 with a message naming both states on an illegal
transition. -/
inductive UpdateError
  | not_found
  | invalid_transition (src tgt : String)
deriving DecidableEq, Repr

/-- The stored string value of each alert status. -/
def statusName : AlertStatus → String
  | AlertStatus.new => "new"
  | AlertStatus.triaged => "triaged"
  | AlertStatus.investigating => "investigating"
  | AlertStatus.resolved => "resolved"
  | AlertStatus.false_positive => "false_positive"

/-- Modelled from the spec: the allowed-transition table of
`AlertsService.update_status` (spec section 4.4), absent from the mock
`alerts_service.py` in the snapshot. -/
def allowed_transition : AlertStatus → AlertStatus → Bool
  | AlertStatus.new, AlertStatus.triaged => true
  | AlertStatus.new, AlertStatus.investigating => true
  | AlertStatus.new, AlertStatus.resolved => true
  | AlertStatus.new, AlertStatus.false_positive => true
  | AlertStatus.triaged, AlertStatus.investigating => true
  | AlertStatus.triaged, AlertStatus.resolved => true
  | AlertStatus.triaged, AlertStatus.false_positive => true
  | AlertStatus.investigating, AlertStatus.resolved => true
  | AlertStatus.investigating, AlertStatus.false_positive => true
  | AlertStatus.resolved, AlertStatus.triaged => true
  | AlertStatus.false_positive, AlertStatus.triaged => true
  | _, _ => false

/-- Alert row lookup by id. -/
def getAlertRow (alerts : List Alert) (i : Nat) : Option Alert :=
  alerts.find? fun a => a.id == i

/-- Modelled from the spec: `AlertsService.update_status` as exposed by
`update_alert_status` in backend/app/routes/alerts.py — a missing alert is
404, a same-state update is a no-op success, a transition in the table
updates the row, anything else raises the invalid-transition error naming
source and target states. -/
def update_status (now : Int) (alerts : List Alert) (alert_id : Nat)
    (status : AlertStatus) : Except UpdateError (Alert × List Alert) :=
  match getAlertRow alerts alert_id with
  | none => Except.error UpdateError.not_found
  | some a =>
      if a.status = status then Except.ok (a, alerts)
      else if allowed_transition a.status status then
        let upd : Alert → Alert := fun x => { x with status := status, updated_at := now }
        Except.ok (upd a, DetectionService.replaceAlert a.id upd alerts)
      else
        Except.error (UpdateError.invalid_transition (statusName a.status) (statusName status))

end AlertsService

/-! ## Helper lemmas -/

theorem getRow_applyById (f : IngestMsg → IngestMsg) (hf : ∀ m, (f m).id = m.id)
    (msgs : List IngestMsg) (i j : Nat) :
    getRow (applyById i f msgs) j =
      if j = i then (getRow msgs i).map f else getRow msgs j := by
  induction msgs with
  | nil => by_cases hji : j = i <;> simp [getRow, applyById, hji]
  | cons m rest ih =>
      simp only [getRow, applyById, List.map_cons] at ih ⊢
      by_cases hmi : m.id = i
      · by_cases hji : j = i
        · subst hji
          simp [List.find?_cons, hmi, hf]
        · have hmj : ¬ (m.id = j) := by rw [hmi]; exact fun h => hji h.symm
          have hij : (i == j) = false := by
            simp only [beq_eq_false_iff_ne, ne_eq]
            exact fun h => hji h.symm
          simp [List.find?_cons, hmi, hf, hmj, hji, ih, hij]
      · by_cases hmj : m.id = j
        · by_cases hji : j = i
          · exact absurd (hji ▸ hmj) hmi
          · simp [List.find?_cons, hmi, hmj, hji]
        · by_cases hji : j = i
          · subst hji
            simp [List.find?_cons, hmi, hmj, ih]
          · simp [List.find?_cons, hmi, hmj, hji, ih]

namespace IngestionPipeline

theorem processClaimed_id (mA : Nat) (h : IngestMsg → Except String Unit) (m : IngestMsg) :
    (processClaimed mA h m).id = m.id := by
  simp only [processClaimed]
  split <;> rfl

theorem getRow_stepMsg_self (mA : Nat) (h : IngestMsg → Except String Unit)
    (msgs : List IngestMsg) (i : Nat) :
    getRow (stepMsg mA h msgs i) i = (getRow msgs i).map (stepOne mA h) := by
  unfold stepMsg
  cases hm : getRow msgs i with
  | none => simp [hm]
  | some m =>
      by_cases hc : claimable m.status
      · simp only [hm, hc, if_true, Option.map_some']
        rw [getRow_applyById _ (processClaimed_id mA h) msgs i i, if_pos rfl, hm]
        simp [stepOne, hc]
      · simp only [hm, Option.map_some']
        rw [if_neg hc, hm]
        simp [stepOne, hc]

theorem getRow_stepMsg_other (mA : Nat) (h : IngestMsg → Except String Unit)
    (msgs : List IngestMsg) (i j : Nat) (hij : j ≠ i) :
    getRow (stepMsg mA h msgs i) j = getRow msgs j := by
  unfold stepMsg
  cases hm : getRow msgs i with
  | none => rfl
  | some m =>
      by_cases hc : claimable m.status
      · simp only [hc, if_true]
        rw [getRow_applyById _ (processClaimed_id mA h) msgs i j, if_neg hij]
      · simp [hc]

theorem getRow_foldl_notmem (mA : Nat) (h : IngestMsg → Except String Unit)
    (ids : List Nat) (msgs : List IngestMsg) (i : Nat) (hi : i ∉ ids) :
    getRow (ids.foldl (stepMsg mA h) msgs) i = getRow msgs i := by
  induction ids generalizing msgs with
  | nil => rfl
  | cons j rest ih =>
      simp only [List.mem_cons, not_or] at hi
      rw [List.foldl_cons, ih _ hi.2, getRow_stepMsg_other mA h msgs j i hi.1]

theorem getRow_foldl_mem (mA : Nat) (h : IngestMsg → Except String Unit)
    (ids : List Nat) (msgs : List IngestMsg) (i : Nat) :
    ids.Nodup → i ∈ ids →
      getRow (ids.foldl (stepMsg mA h) msgs) i = (getRow msgs i).map (stepOne mA h) := by
  induction ids generalizing msgs with
  | nil => exact fun _ hi => absurd hi (List.not_mem_nil i)
  | cons j rest ih =>
      intro hnd hi
      rw [List.nodup_cons] at hnd
      rw [List.foldl_cons]
      rcases List.mem_cons.mp hi with hij | hir
      · subst hij
        rw [getRow_foldl_notmem mA h rest _ i hnd.1,
          getRow_stepMsg_self mA h msgs i]
      · have hij : i ≠ j := fun hh => hnd.1 (hh ▸ hir)
        rw [ih _ hnd.2 hir, getRow_stepMsg_other mA h msgs j i hij]

theorem getRow_foldl_unclaimable (mA : Nat) (h : IngestMsg → Except String Unit)
    (ids : List Nat) (msgs : List IngestMsg) (i : Nat) (m : IngestMsg)
    (hcl : claimable m.status = false) :
    getRow msgs i = some m →
      getRow (ids.foldl (stepMsg mA h) msgs) i = some m := by
  induction ids generalizing msgs with
  | nil => exact fun hm => hm
  | cons j rest ih =>
      intro hm
      rw [List.foldl_cons]
      apply ih
      by_cases hij : i = j
      · subst hij
        unfold stepMsg
        simp only [hm]
        have hne : ¬ (claimable m.status = true) := by
          rw [hcl]; exact Bool.false_ne_true
        rw [if_neg hne]
        exact hm
      · rw [getRow_stepMsg_other mA h msgs j i hij]
        exact hm

theorem insertByCreated_perm (m : IngestMsg) (l : List IngestMsg) :
    (insertByCreated m l).Perm (m :: l) := by
  induction l with
  | nil => exact List.Perm.refl _
  | cons x xs ih =>
      unfold insertByCreated
      split
      · exact List.Perm.refl _
      · exact (List.Perm.cons x ih).trans (List.Perm.swap m x xs)

theorem sortByCreated_perm (l : List IngestMsg) : (sortByCreated l).Perm l := by
  induction l with
  | nil => exact List.Perm.refl _
  | cons x xs ih =>
      unfold sortByCreated at ih ⊢
      exact (insertByCreated_perm x _).trans (List.Perm.cons x ih)

theorem batchCandidates_nodup (mA bs : Nat) (msgs : List IngestMsg)
    (h : (msgs.map fun m => m.id).Nodup) : (batchCandidates mA bs msgs).Nodup := by
  unfold batchCandidates
  apply List.Nodup.sublist (List.take_sublist _ _)
  apply List.Nodup.sublist (List.Sublist.map _ (List.filter_sublist _))
  exact (((sortByCreated_perm msgs).map fun m => m.id).symm).nodup h

end IngestionPipeline

theorem filter_nil_of_imp {α : Type} {p q : α → Bool} (l : List α)
    (h : l.filter p = []) (himp : ∀ a, q a = true → p a = true) :
    l.filter q = [] := by
  rw [List.filter_eq_nil_iff] at h ⊢
  exact fun a ha hq => h a ha (himp a hq)

theorem queueDepth_append (l1 l2 : List IngestMsg) :
    queueDepth (l1 ++ l2) = queueDepth l1 + queueDepth l2 := by
  simp [queueDepth, List.filter_append]

theorem enqueueFlows_length_le (digest : String → String → List ℚ → String)
    (source : String) (now : Int) (flows : List FlowPayload)
    (keys : List String) (nid : Nat) :
    (enqueueFlows digest source now flows keys nid).msgs.length ≤ flows.length := by
  induction flows generalizing keys nid with
  | nil => simp [enqueueFlows]
  | cons f rest ih =>
      simp only [enqueueFlows]
      split
      · exact Nat.le_trans (ih keys nid) (Nat.le_succ _)
      · simpa using ih _ (nid + 1)

theorem enqueueFlows_all_dups (digest : String → String → List ℚ → String)
    (source : String) (now : Int) (flows : List FlowPayload)
    (keys : List String) (nid : Nat)
    (h : ∀ f ∈ flows, _flow_idempotency_key digest source f ∈ keys) :
    enqueueFlows digest source now flows keys nid =
      { msgs := [], queued := 0, dups := flows.length, nextId := nid } := by
  induction flows with
  | nil => rfl
  | cons f rest ih =>
      have hf : _flow_idempotency_key digest source f ∈ keys :=
        h f (List.mem_cons_self f rest)
      have hrest : ∀ g ∈ rest, _flow_idempotency_key digest source g ∈ keys :=
        fun g hg => h g (List.mem_cons_of_mem f hg)
      simp only [enqueueFlows, if_pos hf, ih hrest, List.length_cons]

theorem not_mem_existingKeys (source : String) (cutoff : Int)
    (msgs : List IngestMsg) (k : String)
    (h : ∀ m ∈ msgs, m.idempotency_key ≠ k) :
    k ∉ existingKeys source cutoff msgs := by
  intro hk
  rcases List.mem_map.mp hk with ⟨m, hm, hmk⟩
  exact h m (List.mem_of_mem_filter hm) hmk

theorem existingKeys_append (source : String) (cutoff : Int) (l1 l2 : List IngestMsg) :
    existingKeys source cutoff (l1 ++ l2) =
      existingKeys source cutoff l1 ++ existingKeys source cutoff l2 := by
  simp [existingKeys, List.filter_append]

namespace DetectionService

theorem canaryStep_alerts (sample : Bool) (canaryResult : Option CanaryResult)
    (source : String) (model_version : Option String) (prediction : String)
    (confidence : ℚ) (features : Option (List ℚ)) (st : DetectionState) :
    (canaryStep sample canaryResult source model_version prediction confidence features st).alerts
      = st.alerts := by
  unfold canaryStep
  split
  · cases canaryResult <;> rfl
  · rfl

theorem canaryStep_notifications (sample : Bool) (canaryResult : Option CanaryResult)
    (source : String) (model_version : Option String) (prediction : String)
    (confidence : ℚ) (features : Option (List ℚ)) (st : DetectionState) :
    (canaryStep sample canaryResult source model_version prediction confidence features st).notifications
      = st.notifications := by
  unfold canaryStep
  split
  · cases canaryResult <;> rfl
  · rfl

theorem openMatch_imp_key (key : String) (cutoff : Int) (a : Alert)
    (h : openMatch key cutoff a = true) : (a.dedup_key == key) = true := by
  unfold openMatch at h
  exact (Bool.and_eq_true _ _).mp ((Bool.and_eq_true _ _).mp h).1 |>.1

theorem findOpenAlert_nil (alerts : List Alert) (key : String) (cutoff : Int)
    (h : alerts.filter (openMatch key cutoff) = []) :
    findOpenAlert alerts key cutoff = none := by
  unfold findOpenAlert
  rw [h]

theorem findOpenAlert_append_single (alerts : List Alert) (a : Alert)
    (key : String) (cutoff : Int)
    (hnil : alerts.filter (openMatch key cutoff) = [])
    (ha : openMatch key cutoff a = true) :
    findOpenAlert (alerts ++ [a]) key cutoff = some a := by
  unfold findOpenAlert
  rw [List.filter_append, hnil, List.nil_append, List.filter_cons, if_pos ha]
  rfl

theorem mergeUpdate_dedup_key (c : ℚ) (now : Int) (a : Alert) :
    (mergeUpdate c now a).dedup_key = a.dedup_key := by
  unfold mergeUpdate
  split <;> rfl

theorem mergeUpdate_status (c : ℚ) (now : Int) (a : Alert) :
    (mergeUpdate c now a).status = a.status := by
  unfold mergeUpdate
  split <;> rfl

theorem mergeUpdate_confidence (c : ℚ) (now : Int) (a : Alert) :
    (mergeUpdate c now a).confidence = max a.confidence c := by
  unfold mergeUpdate
  rcases lt_or_ge a.confidence c with hlt | hge
  · rw [if_pos hlt]
    exact (max_eq_right (le_of_lt hlt)).symm
  · rw [if_neg (not_lt_of_ge hge)]
    exact (max_eq_left hge).symm

theorem mergeUpdate_severity (c : ℚ) (now : Int) (a : Alert) :
    (mergeUpdate c now a).severity =
      if a.confidence < c then _severity c else a.severity := by
  unfold mergeUpdate
  split <;> rfl

theorem replaceAlert_length (i : Nat) (f : Alert → Alert) (l : List Alert) :
    (replaceAlert i f l).length = l.length := by
  simp [replaceAlert]

theorem record_threat_create
    (W now : Int) (sm : Bool) (cr : Option CanaryResult)
    (p : String) (c : ℚ) (src sip dip : String)
    (f : Option (List ℚ)) (mv : Option String) (st st2 : DetectionState)
    (ev : ClassificationEvent)
    (hev : ev = { id := st.nextId, source := src, source_ip := sip, destination_ip := dip,
                  model_version := mv, prediction := p, confidence := c, is_threat := true,
                  features := f, created_at := now })
    (hst2 : st2 = canaryStep sm cr src mv p c f
        { st with nextId := st.nextId + 1, events := st.events ++ [ev] })
    (hfind : findOpenAlert st2.alerts (p ++ ":" ++ sip ++ ":" ++ dip) (now - W) = none) :
    record_classification W now sm cr p c true src sip dip f mv st =
      (ev,
       some { id := st2.nextId, event_id := some ev.id,
              dedup_key := p ++ ":" ++ sip ++ ":" ++ dip, type := p,
              severity := _severity c, source_ip := sip, destination_ip := dip,
              confidence := c, status := AlertStatus.new,
              created_at := now, updated_at := now },
       { st2 with
         nextId := st2.nextId + 1
         alerts := st2.alerts ++
           [{ id := st2.nextId, event_id := some ev.id,
              dedup_key := p ++ ":" ++ sip ++ ":" ++ dip, type := p,
              severity := _severity c, source_ip := sip, destination_ip := dip,
              confidence := c, status := AlertStatus.new,
              created_at := now, updated_at := now }]
         notifications := st2.notifications ++
           [{ id := st2.nextId, event_id := some ev.id, type := p,
              severity := _severity c, source_ip := sip, destination_ip := dip,
              confidence := c, status := AlertStatus.new,
              model_version := mv, source := src }] }) := by
  subst hev hst2
  simp only [record_classification, Bool.not_true, Bool.false_eq_true, if_false, hfind]

theorem record_threat_merge
    (W now : Int) (sm : Bool) (cr : Option CanaryResult)
    (p : String) (c : ℚ) (src sip dip : String)
    (f : Option (List ℚ)) (mv : Option String) (st st2 : DetectionState)
    (ev : ClassificationEvent) (a : Alert)
    (hev : ev = { id := st.nextId, source := src, source_ip := sip, destination_ip := dip,
                  model_version := mv, prediction := p, confidence := c, is_threat := true,
                  features := f, created_at := now })
    (hst2 : st2 = canaryStep sm cr src mv p c f
        { st with nextId := st.nextId + 1, events := st.events ++ [ev] })
    (hfind : findOpenAlert st2.alerts (p ++ ":" ++ sip ++ ":" ++ dip) (now - W) = some a) :
    record_classification W now sm cr p c true src sip dip f mv st =
      (ev, some (mergeUpdate c now a),
       { st2 with alerts := replaceAlert a.id (mergeUpdate c now) st2.alerts }) := by
  subst hev hst2
  simp only [record_classification, Bool.not_true, Bool.false_eq_true, if_false, hfind]

theorem filter_key_replace (key : String) (i : Nat) (f : Alert → Alert)
    (hf : ∀ a, (f a).dedup_key = a.dedup_key) (l : List Alert) :
    (replaceAlert i f l).filter (fun a => a.dedup_key == key) =
      (l.filter (fun a => a.dedup_key == key)).map (fun a => if a.id = i then f a else a) := by
  unfold replaceAlert
  induction l with
  | nil => rfl
  | cons x xs ih =>
      simp only [List.map_cons, List.filter_cons]
      have hkey : ((if x.id = i then f x else x).dedup_key == key) = (x.dedup_key == key) := by
        split <;> simp [hf]
      rw [hkey]
      split
      · simp only [List.map_cons, ih]
      · exact ih

theorem record_create_parts
    (W now : Int) (sm : Bool) (cr : Option CanaryResult) (p : String) (c : ℚ)
    (src sip dip : String) (f : Option (List ℚ)) (mv : Option String)
    (st : DetectionState)
    (hfind : findOpenAlert st.alerts (p ++ ":" ++ sip ++ ":" ++ dip) (now - W) = none) :
    ∃ a : Alert,
      (record_classification W now sm cr p c true src sip dip f mv st).2.1 = some a ∧
      (record_classification W now sm cr p c true src sip dip f mv st).2.2.alerts
        = st.alerts ++ [a] ∧
      a.dedup_key = p ++ ":" ++ sip ++ ":" ++ dip ∧
      a.confidence = c ∧
      a.severity = _severity c ∧
      a.status = AlertStatus.new ∧
      a.created_at = now ∧
      (record_classification W now sm cr p c true src sip dip f mv st).2.2.notifications.length
        = st.notifications.length + 1 := by
  have h := record_threat_create W now sm cr p c src sip dip f mv st _ _ rfl rfl
    (by rw [canaryStep_alerts]; exact hfind)
  rw [h]
  refine ⟨_, rfl, by rw [canaryStep_alerts], rfl, rfl, rfl, rfl, rfl, ?_⟩
  rw [List.length_append, canaryStep_notifications]
  rfl

theorem record_merge_parts
    (W now : Int) (sm : Bool) (cr : Option CanaryResult) (p : String) (c : ℚ)
    (src sip dip : String) (f : Option (List ℚ)) (mv : Option String)
    (st : DetectionState) (a : Alert)
    (hfind : findOpenAlert st.alerts (p ++ ":" ++ sip ++ ":" ++ dip) (now - W) = some a) :
    (record_classification W now sm cr p c true src sip dip f mv st).2.1
      = some (mergeUpdate c now a) ∧
    (record_classification W now sm cr p c true src sip dip f mv st).2.2.alerts
      = replaceAlert a.id (mergeUpdate c now) st.alerts ∧
    (record_classification W now sm cr p c true src sip dip f mv st).2.2.notifications
      = st.notifications := by
  have h := record_threat_merge W now sm cr p c src sip dip f mv st _ _ a rfl rfl
    (by rw [canaryStep_alerts]; exact hfind)
  rw [h]
  exact ⟨rfl, by rw [canaryStep_alerts], by rw [canaryStep_notifications]⟩

end DetectionService

/-! ## Claims -/

/-- C1: for two `record_classification` calls with `is_threat = true` and
identical `(prediction, source_ip, destination_ip)`, where the first call
finds no alert under the dedup key and the second call happens within the
dedup window of the first (so it finds the first call's still-open alert),
exactly one new Alert row exists afterwards (and it is the only row under
the dedup key), its confidence is the maximum of the two confidences, its
severity is recomputed from the second confidence exactly when that one is
strictly higher, and the second call fires no notification. -/
theorem C1_alert_dedup_merge
    (W t1 t2 : Int) (c1 c2 : ℚ) (p src1 src2 sip dip : String)
    (s1m s2m : Bool) (cr1 cr2 : Option CanaryResult)
    (f1 f2 : Option (List ℚ)) (mv1 mv2 : Option String)
    (st0 : DetectionState)
    (r1 r2 : ClassificationEvent × Option Alert × DetectionState)
    (hr1 : r1 = DetectionService.record_classification W t1 s1m cr1 p c1 true src1 sip dip f1 mv1 st0)
    (hr2 : r2 = DetectionService.record_classification W t2 s2m cr2 p c2 true src2 sip dip f2 mv2 r1.2.2)
    (hkey : st0.alerts.filter (fun a => a.dedup_key == p ++ ":" ++ sip ++ ":" ++ dip) = [])
    (hwin : t2 - W ≤ t1) :
    r2.2.2.alerts.length = st0.alerts.length + 1 ∧
    (∃ a : Alert,
      r2.2.1 = some a ∧
      r2.2.2.alerts.filter (fun x => x.dedup_key == p ++ ":" ++ sip ++ ":" ++ dip) = [a] ∧
      a.confidence = max c1 c2 ∧
      a.severity = (if c1 < c2 then DetectionService._severity c2
                    else DetectionService._severity c1) ∧
      a.status = AlertStatus.new) ∧
    r1.2.2.notifications.length = st0.notifications.length + 1 ∧
    r2.2.2.notifications = r1.2.2.notifications := by
  subst hr1
  subst hr2
  have hnil : ∀ cutoff : Int,
      st0.alerts.filter (DetectionService.openMatch (p ++ ":" ++ sip ++ ":" ++ dip) cutoff) = [] :=
    fun cutoff => filter_nil_of_imp st0.alerts hkey
      (DetectionService.openMatch_imp_key (p ++ ":" ++ sip ++ ":" ++ dip) cutoff)
  obtain ⟨a1, h11, h12, hk1, hc1, hs1, hst1, hca1, hn1⟩ :=
    DetectionService.record_create_parts W t1 s1m cr1 p c1 src1 sip dip f1 mv1 st0
      (DetectionService.findOpenAlert_nil _ _ _ (hnil (t1 - W)))
  have hopen : DetectionService.openMatch (p ++ ":" ++ sip ++ ":" ++ dip) (t2 - W) a1 = true := by
    simp [DetectionService.openMatch, hk1, hca1, hst1, DetectionService.isOpenStatus, hwin]
  have hfind2 :
      DetectionService.findOpenAlert
        (DetectionService.record_classification W t1 s1m cr1 p c1 true src1 sip dip f1 mv1 st0).2.2.alerts
        (p ++ ":" ++ sip ++ ":" ++ dip) (t2 - W) = some a1 := by
    rw [h12]
    exact DetectionService.findOpenAlert_append_single _ _ _ _ (hnil (t2 - W)) hopen
  obtain ⟨h21, h22, h23⟩ :=
    DetectionService.record_merge_parts W t2 s2m cr2 p c2 src2 sip dip f2 mv2 _ a1 hfind2
  refine ⟨?_, ⟨DetectionService.mergeUpdate c2 t2 a1, h21, ?_, ?_, ?_, ?_⟩, hn1, h23⟩
  · rw [h22, DetectionService.replaceAlert_length, h12, List.length_append]
    rfl
  · rw [h22,
      DetectionService.filter_key_replace (p ++ ":" ++ sip ++ ":" ++ dip) a1.id _
        (fun x => DetectionService.mergeUpdate_dedup_key c2 t2 x),
      h12, List.filter_append, hkey]
    simp [hk1]
  · rw [DetectionService.mergeUpdate_confidence, hc1]
  · rw [DetectionService.mergeUpdate_severity, hc1, hs1]
  · rw [DetectionService.mergeUpdate_status, hst1]

/-- Witness for C1 at a concrete input: dedup window 10 minutes, calls at
t=100 and t=105 with confidences 0.81 and 0.97 on an empty initial state
leave exactly one alert row. -/
theorem C1_alert_dedup_merge_witness :
    (DetectionService.record_classification 10 105 false none "DDoS" 0.97 true
      "s1" "1.2.3.4" "5.6.7.8" none none
      (DetectionService.record_classification 10 100 false none "DDoS" 0.81 true
        "s1" "1.2.3.4" "5.6.7.8" none none
        ⟨0, [], [], [], []⟩).2.2).2.2.alerts.length = 1 :=
  (C1_alert_dedup_merge 10 100 105 0.81 0.97 "DDoS" "s1" "s1" "1.2.3.4" "5.6.7.8"
    false false none none none none none none ⟨0, [], [], [], []⟩
    _ _ rfl rfl rfl (by decide)).1

/-- C2: an enqueue request is rejected in full with a backpressure error
when the live depth (queued/processing/failed) already reaches the
configured maximum or the request's flow count would push it past the
maximum; consequently a successful enqueue never leaves the depth above
the maximum. -/
theorem C2_backpressure_bound
    (digest : String → String → List ℚ → String) (maxDepth : Nat)
    (idemWindow now : Int) (source : String) (flows : List FlowPayload)
    (st : IngestState) :
    (maxDepth ≤ queueDepth st.messages ∨
        maxDepth < queueDepth st.messages + flows.length →
      ∃ e, ingest_flows digest maxDepth idemWindow now source flows st = Except.error e) ∧
    (∀ r st', ingest_flows digest maxDepth idemWindow now source flows st = Except.ok (r, st') →
      queueDepth st'.messages ≤ maxDepth) := by
  constructor
  · intro h
    by_cases h1 : maxDepth ≤ queueDepth st.messages
    · exact ⟨IngestReject.depth_exceeded, by simp only [ingest_flows]; rw [if_pos h1]⟩
    · have h2 : maxDepth < queueDepth st.messages + flows.length := by
        rcases h with h | h
        · exact absurd h h1
        · exact h
      exact ⟨IngestReject.capacity_exceeded, by
        simp only [ingest_flows]; rw [if_neg h1, if_pos h2]⟩
  · intro r st' hok
    simp only [ingest_flows] at hok
    by_cases h1 : maxDepth ≤ queueDepth st.messages
    · rw [if_pos h1] at hok; cases hok
    · rw [if_neg h1] at hok
      by_cases h2 : maxDepth < queueDepth st.messages + flows.length
      · rw [if_pos h2] at hok; cases hok
      · rw [if_neg h2] at hok
        simp only [Except.ok.injEq, Prod.mk.injEq] at hok
        obtain ⟨-, hst'⟩ := hok
        subst hst'
        rw [queueDepth_append]
        have hle1 : queueDepth (enqueueFlows digest source now flows
            (existingKeys source (now - idemWindow) st.messages) st.nextId).msgs ≤
            (enqueueFlows digest source now flows
              (existingKeys source (now - idemWindow) st.messages) st.nextId).msgs.length :=
          List.length_filter_le _ _
        have hle2 := enqueueFlows_length_le digest source now flows
          (existingKeys source (now - idemWindow) st.messages) st.nextId
        omega

/-- Witness for C2: with max depth 0 any request is rejected. -/
theorem C2_backpressure_bound_witness :
    ∃ e, ingest_flows (fun _ _ _ => "h") 0 30 100 "s1"
      [{ flow_id := some "f-1", source_ip := "a", destination_ip := "b", features := [1] }]
      ⟨[], 0⟩ = Except.error e :=
  (C2_backpressure_bound (fun _ _ _ => "h") 0 30 100 "s1"
    [{ flow_id := some "f-1", source_ip := "a", destination_ip := "b", features := [1] }]
    ⟨[], 0⟩).1 (Or.inl (by decide))

/-- C10: the capacity check counts every flow of the request before
duplicate filtering — a request whose flows are all duplicates (zero
messages would be persisted) is still rejected whenever the depth plus the
request's flow count exceeds the maximum. -/
theorem C10_backpressure_counts_duplicates
    (digest : String → String → List ℚ → String) (maxDepth : Nat)
    (idemWindow now : Int) (source : String) (flows : List FlowPayload)
    (st : IngestState)
    (hdup : ∀ f ∈ flows,
      _flow_idempotency_key digest source f ∈
        existingKeys source (now - idemWindow) st.messages)
    (hcap : maxDepth < queueDepth st.messages + flows.length) :
    (enqueueFlows digest source now flows
        (existingKeys source (now - idemWindow) st.messages) st.nextId).msgs = [] ∧
    ∃ e, ingest_flows digest maxDepth idemWindow now source flows st = Except.error e := by
  constructor
  · rw [enqueueFlows_all_dups digest source now flows _ st.nextId hdup]
  · by_cases h1 : maxDepth ≤ queueDepth st.messages
    · exact ⟨IngestReject.depth_exceeded, by simp only [ingest_flows]; rw [if_pos h1]⟩
    · exact ⟨IngestReject.capacity_exceeded, by
        simp only [ingest_flows]; rw [if_neg h1, if_pos hcap]⟩

/-- Witness for C10: one queued message with key s1:f-1, max depth 1, and
a request consisting of the same flow again — all-duplicate, yet
rejected. -/
theorem C10_backpressure_counts_duplicates_witness :
    ∃ e, ingest_flows (fun _ _ _ => "h") 1 30 100 "s1"
      [{ flow_id := some "f-1", source_ip := "a", destination_ip := "b", features := [1] }]
      ⟨[{ id := 0, source := "s1", idempotency_key := "s1:f-1",
          payload := { flow_id := some "f-1", source_ip := "a",
                       destination_ip := "b", features := [1] },
          status := QueueStatus.queued, attempts := 0, last_error := none,
          created_at := 90 }], 1⟩ = Except.error e :=
  (C10_backpressure_counts_duplicates (fun _ _ _ => "h") 1 30 100 "s1"
    [{ flow_id := some "f-1", source_ip := "a", destination_ip := "b", features := [1] }]
    ⟨[{ id := 0, source := "s1", idempotency_key := "s1:f-1",
        payload := { flow_id := some "f-1", source_ip := "a",
                     destination_ip := "b", features := [1] },
        status := QueueStatus.queued, attempts := 0, last_error := none,
        created_at := 90 }], 1⟩ (by decide) (by decide)).2

/-- C5: for a flow with an explicit (non-empty) flow_id the idempotency
key is `source:flow_id`; enqueuing the same `(source, flow_id)` twice
within the idempotency window persists exactly one queued message — the
second call succeeds, reports one skipped duplicate, enqueues nothing and
leaves the message table (hence the existing message) untouched. -/
theorem C5_explicit_key_idempotent
    (digest : String → String → List ℚ → String) (maxDepth : Nat)
    (idemWindow t1 t2 : Int) (source : String) (flow : FlowPayload)
    (fid : String) (st0 : IngestState)
    (hfid : flow.flow_id = some fid) (hne : fid ≠ "")
    (hkey : ∀ m ∈ st0.messages, m.idempotency_key ≠ source ++ ":" ++ fid)
    (hdepth : queueDepth st0.messages + 2 ≤ maxDepth)
    (hwin : t2 - idemWindow ≤ t1) :
    _flow_idempotency_key digest source flow = source ++ ":" ++ fid ∧
    ∃ st1 : IngestState,
      ingest_flows digest maxDepth idemWindow t1 source [flow] st0 =
        Except.ok ({ queued := 1, duplicates_skipped := 0,
                     queue_depth := queueDepth st0.messages + 1 }, st1) ∧
      (st1.messages.filter (fun m => m.idempotency_key == source ++ ":" ++ fid)).length = 1 ∧
      (∀ m ∈ st1.messages, m.idempotency_key = source ++ ":" ++ fid →
        m.status = QueueStatus.queued) ∧
      ∃ st2 : IngestState,
        ingest_flows digest maxDepth idemWindow t2 source [flow] st1 =
          Except.ok ({ queued := 0, duplicates_skipped := 1,
                       queue_depth := queueDepth st1.messages }, st2) ∧
        st2.messages = st1.messages := by
  have hkeyeq : _flow_idempotency_key digest source flow = source ++ ":" ++ fid := by
    simp [_flow_idempotency_key, hfid, hne]
  refine ⟨hkeyeq, ?_⟩
  have h1 : ¬ (maxDepth ≤ queueDepth st0.messages) := by omega
  have h2 : ¬ (maxDepth < queueDepth st0.messages + [flow].length) := by
    simp only [List.length_cons, List.length_nil]
    omega
  have hnot : _flow_idempotency_key digest source flow ∉
      existingKeys source (t1 - idemWindow) st0.messages := by
    rw [hkeyeq]
    exact not_mem_existingKeys source (t1 - idemWindow) st0.messages _ hkey
  have hcall1 : ingest_flows digest maxDepth idemWindow t1 source [flow] st0 =
      Except.ok ({ queued := 1, duplicates_skipped := 0,
                   queue_depth := queueDepth st0.messages + 1 },
        { messages := st0.messages ++
            [{ id := st0.nextId, source := source,
               idempotency_key := _flow_idempotency_key digest source flow,
               payload := flow, status := QueueStatus.queued, attempts := 0,
               last_error := none, created_at := t1 }],
          nextId := st0.nextId + 1 }) := by
    simp only [ingest_flows]
    rw [if_neg h1, if_neg h2]
    simp only [enqueueFlows]
    rw [if_neg hnot]
  refine ⟨_, hcall1, ?_, ?_, ?_⟩
  · rw [List.filter_append]
    have hfilternil :
        st0.messages.filter (fun m => m.idempotency_key == source ++ ":" ++ fid) = [] :=
      List.filter_eq_nil_iff.mpr fun m hm => by simp [hkey m hm]
    rw [hfilternil]
    simp [hkeyeq]
  · intro m hm hmk
    rcases List.mem_append.mp hm with hm0 | hm1
    · exact absurd hmk (hkey m hm0)
    · rw [List.mem_singleton.mp hm1]
  · have hdepth1 : queueDepth (st0.messages ++
        [{ id := st0.nextId, source := source,
           idempotency_key := _flow_idempotency_key digest source flow,
           payload := flow, status := QueueStatus.queued, attempts := 0,
           last_error := none, created_at := t1 }]) = queueDepth st0.messages + 1 := by
      rw [queueDepth_append]
      rfl
    have hmem : _flow_idempotency_key digest source flow ∈
        existingKeys source (t2 - idemWindow) (st0.messages ++
          [{ id := st0.nextId, source := source,
             idempotency_key := _flow_idempotency_key digest source flow,
             payload := flow, status := QueueStatus.queued, attempts := 0,
             last_error := none, created_at := t1 }]) := by
      rw [existingKeys_append]
      apply List.mem_append_right
      refine List.mem_map.mpr ⟨_, List.mem_filter.mpr ⟨List.mem_singleton_self _, ?_⟩, rfl⟩
      simp [hwin]
    have hcall2 : ingest_flows digest maxDepth idemWindow t2 source [flow]
        { messages := st0.messages ++
            [{ id := st0.nextId, source := source,
               idempotency_key := _flow_idempotency_key digest source flow,
               payload := flow, status := QueueStatus.queued, attempts := 0,
               last_error := none, created_at := t1 }],
          nextId := st0.nextId + 1 } =
        Except.ok ({ queued := 0, duplicates_skipped := 1,
                     queue_depth := queueDepth (st0.messages ++
                       [{ id := st0.nextId, source := source,
                          idempotency_key := _flow_idempotency_key digest source flow,
                          payload := flow, status := QueueStatus.queued, attempts := 0,
                          last_error := none, created_at := t1 }]) },
          { messages := (st0.messages ++
              [{ id := st0.nextId, source := source,
                 idempotency_key := _flow_idempotency_key digest source flow,
                 payload := flow, status := QueueStatus.queued, attempts := 0,
                 last_error := none, created_at := t1 }]) ++ [],
            nextId := st0.nextId + 1 }) := by
      have hA : ¬ (maxDepth ≤ queueDepth (st0.messages ++
          [{ id := st0.nextId, source := source,
             idempotency_key := _flow_idempotency_key digest source flow,
             payload := flow, status := QueueStatus.queued, attempts := 0,
             last_error := none, created_at := t1 }])) := by
        rw [hdepth1]; omega
      have hB : ¬ (maxDepth < queueDepth (st0.messages ++
          [{ id := st0.nextId, source := source,
             idempotency_key := _flow_idempotency_key digest source flow,
             payload := flow, status := QueueStatus.queued, attempts := 0,
             last_error := none, created_at := t1 }]) + [flow].length) := by
        rw [hdepth1]
        simp only [List.length_cons, List.length_nil]
        omega
      simp only [ingest_flows]
      rw [if_neg hA, if_neg hB]
      simp only [enqueueFlows]
      rw [if_pos hmem]
      rfl
    exact ⟨_, hcall2, List.append_nil _⟩

/-- Witness for C5: concrete double enqueue of flow f-1 from source s1. -/
theorem C5_explicit_key_idempotent_witness :
    _flow_idempotency_key (fun _ _ _ => "h") "s1"
      { flow_id := some "f-1", source_ip := "a", destination_ip := "b", features := [1] }
      = "s1" ++ ":" ++ "f-1" :=
  (C5_explicit_key_idempotent (fun _ _ _ => "h") 5 30 100 105 "s1"
    { flow_id := some "f-1", source_ip := "a", destination_ip := "b", features := [1] }
    "f-1" ⟨[], 0⟩ rfl (by decide) (by simp) (by decide) (by decide)).1

/-- C3: after a processing exception the terminal update sets status to
dead_letter exactly when the claim-incremented attempts counter reached
max_attempts and to failed otherwise (with last_error recorded); the
worker batch never touches a dead_letter row (candidate select and
conditional claim both require queued/failed), and the explicit retry
reset is the operation that returns a message to queued. -/
theorem C3_failure_routing (maxAttempts batchSize : Nat)
    (handle : IngestMsg → Except String Unit) :
    (∀ (m : IngestMsg) (e : String),
      handle { m with status := QueueStatus.processing, attempts := m.attempts + 1 } =
          Except.error e →
        (IngestionPipeline.processClaimed maxAttempts handle m).status =
          (if maxAttempts ≤ m.attempts + 1 then QueueStatus.dead_letter
           else QueueStatus.failed) ∧
        (IngestionPipeline.processClaimed maxAttempts handle m).last_error = some e) ∧
    (∀ (msgs : List IngestMsg) (i : Nat) (m : IngestMsg),
      getRow msgs i = some m → m.status = QueueStatus.dead_letter →
        getRow (IngestionPipeline._process_batch maxAttempts batchSize handle msgs) i
          = some m) ∧
    (∀ m : IngestMsg, (retryReset m).status = QueueStatus.queued) := by
  refine ⟨?_, ?_, fun _ => rfl⟩
  · intro m e he
    simp only [IngestionPipeline.processClaimed, he]
    exact ⟨trivial, trivial⟩
  · intro msgs i m hm hd
    unfold IngestionPipeline._process_batch
    refine IngestionPipeline.getRow_foldl_unclaimable maxAttempts handle _ msgs i m ?_ hm
    rw [hd]
    rfl

/-- Witness for C3: with max_attempts 1 a first failure routes straight to
dead_letter. -/
theorem C3_failure_routing_witness :
    (IngestionPipeline.processClaimed 1 (fun _ => Except.error "boom")
      { id := 7, source := "s1", idempotency_key := "k",
        payload := { flow_id := none, source_ip := "a", destination_ip := "b", features := [] },
        status := QueueStatus.queued, attempts := 0, last_error := none,
        created_at := 0 }).status = QueueStatus.dead_letter :=
  ((C3_failure_routing 1 100 (fun _ => Except.error "boom")).1
    { id := 7, source := "s1", idempotency_key := "k",
      payload := { flow_id := none, source_ip := "a", destination_ip := "b", features := [] },
      status := QueueStatus.queued, attempts := 0, last_error := none,
      created_at := 0 } "boom" rfl).1

/-- C6: a per-message exception is contained: the failing claimed message
gets last_error set to the exception text and a failed/dead_letter
terminal status, while every other batch candidate is still processed
exactly as it would have been — one failing payload never aborts the
batch. -/
theorem C6_per_message_isolation
    (maxAttempts batchSize : Nat) (handle : IngestMsg → Except String Unit)
    (msgs : List IngestMsg) (i : Nat) (m : IngestMsg) (e : String)
    (hids : (msgs.map fun m => m.id).Nodup)
    (him : getRow msgs i = some m)
    (hcand : i ∈ IngestionPipeline.batchCandidates maxAttempts batchSize msgs)
    (hclaim : IngestionPipeline.claimable m.status = true)
    (hfail : handle { m with status := QueueStatus.processing, attempts := m.attempts + 1 } =
      Except.error e) :
    getRow (IngestionPipeline._process_batch maxAttempts batchSize handle msgs) i =
      some { m with
        status := if maxAttempts ≤ m.attempts + 1 then QueueStatus.dead_letter
                  else QueueStatus.failed
        attempts := m.attempts + 1
        last_error := some e } ∧
    (∀ j, j ∈ IngestionPipeline.batchCandidates maxAttempts batchSize msgs → j ≠ i →
      getRow (IngestionPipeline._process_batch maxAttempts batchSize handle msgs) j =
        (getRow msgs j).map (IngestionPipeline.stepOne maxAttempts handle)) := by
  have hnd := IngestionPipeline.batchCandidates_nodup maxAttempts batchSize msgs hids
  constructor
  · unfold IngestionPipeline._process_batch
    rw [IngestionPipeline.getRow_foldl_mem maxAttempts handle _ msgs i hnd hcand, him,
      Option.map_some']
    unfold IngestionPipeline.stepOne
    rw [if_pos hclaim]
    simp only [IngestionPipeline.processClaimed, hfail]
  · intro j hj _
    unfold IngestionPipeline._process_batch
    exact IngestionPipeline.getRow_foldl_mem maxAttempts handle _ msgs j hnd hj

/-- Witness for C6: a two-message batch where the handler throws only on
message 7 — message 7 ends failed with the error text recorded. -/
theorem C6_per_message_isolation_witness :
    getRow (IngestionPipeline._process_batch 5 100
      (fun m => if m.id = 7 then Except.error "boom" else Except.ok ())
      [{ id := 7, source := "s1", idempotency_key := "k1",
         payload := { flow_id := none, source_ip := "a", destination_ip := "b", features := [] },
         status := QueueStatus.queued, attempts := 0, last_error := none, created_at := 10 },
       { id := 8, source := "s1", idempotency_key := "k2",
         payload := { flow_id := none, source_ip := "a", destination_ip := "b", features := [] },
         status := QueueStatus.queued, attempts := 0, last_error := none, created_at := 11 }]) 7
      = some { id := 7, source := "s1", idempotency_key := "k1",
               payload := { flow_id := none, source_ip := "a", destination_ip := "b", features := [] },
               status := QueueStatus.failed, attempts := 1, last_error := some "boom",
               created_at := 10 } :=
  (C6_per_message_isolation 5 100
    (fun m => if m.id = 7 then Except.error "boom" else Except.ok ())
    [{ id := 7, source := "s1", idempotency_key := "k1",
       payload := { flow_id := none, source_ip := "a", destination_ip := "b", features := [] },
       status := QueueStatus.queued, attempts := 0, last_error := none, created_at := 10 },
     { id := 8, source := "s1", idempotency_key := "k2",
       payload := { flow_id := none, source_ip := "a", destination_ip := "b", features := [] },
       status := QueueStatus.queued, attempts := 0, last_error := none, created_at := 11 }]
    7
    { id := 7, source := "s1", idempotency_key := "k1",
      payload := { flow_id := none, source_ip := "a", destination_ip := "b", features := [] },
      status := QueueStatus.queued, attempts := 0, last_error := none, created_at := 10 }
    "boom" (by decide) rfl (by decide) rfl rfl).1

/-- C9: the manual retry endpoint re-queues any existing message
regardless of its current status — resetting status to queued, attempts
to 0 and clearing last_error — and fails only with not-found when the
message id does not exist. -/
theorem C9_retry_requeues_any_status (msgs : List IngestMsg) (i : Nat) :
    (getRow msgs i = none →
      retry_dead_letter msgs i = Except.error "Ingestion message not found") ∧
    (∀ m : IngestMsg, getRow msgs i = some m →
      retry_dead_letter msgs i = Except.ok (applyById i retryReset msgs) ∧
      getRow (applyById i retryReset msgs) i = some (retryReset m) ∧
      (retryReset m).status = QueueStatus.queued ∧
      (retryReset m).attempts = 0 ∧
      (retryReset m).last_error = none) := by
  constructor
  · intro h
    unfold retry_dead_letter
    rw [h]
  · intro m hm
    refine ⟨by unfold retry_dead_letter; rw [hm], ?_, rfl, rfl, rfl⟩
    rw [getRow_applyById retryReset (fun _ => rfl) msgs i i, if_pos rfl, hm]
    rfl

/-- Witness for C9: a done message with nonzero attempts and an error text
is reset to a queued message with attempts 0 and no error. -/
theorem C9_retry_requeues_any_status_witness :
    retry_dead_letter
      [{ id := 3, source := "s1", idempotency_key := "k",
         payload := { flow_id := none, source_ip := "a", destination_ip := "b", features := [] },
         status := QueueStatus.done, attempts := 4, last_error := some "x", created_at := 5 }] 3
      = Except.ok
          [{ id := 3, source := "s1", idempotency_key := "k",
             payload := { flow_id := none, source_ip := "a", destination_ip := "b", features := [] },
             status := QueueStatus.queued, attempts := 0, last_error := none, created_at := 5 }] :=
  ((C9_retry_requeues_any_status
    [{ id := 3, source := "s1", idempotency_key := "k",
       payload := { flow_id := none, source_ip := "a", destination_ip := "b", features := [] },
       status := QueueStatus.done, attempts := 4, last_error := some "x", created_at := 5 }] 3).2
    { id := 3, source := "s1", idempotency_key := "k",
      payload := { flow_id := none, source_ip := "a", destination_ip := "b", features := [] },
      status := QueueStatus.done, attempts := 4, last_error := some "x", created_at := 5 }
    rfl).1

/-- C4: updating an alert from resolved to investigating fails with the
invalid-transition error naming both states, resolved to triaged
succeeds, a same-state update is a no-op success, and every transition
outside the spec's table is rejected with the error naming source and
target states (the allowed-transition table itself is characterised in
the second conjunct).  The transition logic is modelled from the spec
because the snapshot's alerts_service.py is a mock without it. -/
theorem C4_alert_status_transitions (now : Int) (alerts : List Alert) (i : Nat) :
    (∀ a : Alert, AlertsService.getAlertRow alerts i = some a →
      (a.status = AlertStatus.resolved →
        AlertsService.update_status now alerts i AlertStatus.investigating =
          Except.error (AlertsService.UpdateError.invalid_transition
            "resolved" "investigating")) ∧
      (a.status = AlertStatus.resolved →
        ∃ a' alerts', AlertsService.update_status now alerts i AlertStatus.triaged =
          Except.ok (a', alerts') ∧ a'.status = AlertStatus.triaged) ∧
      (∀ s, a.status = s →
        AlertsService.update_status now alerts i s = Except.ok (a, alerts)) ∧
      (∀ tgt, a.status ≠ tgt → AlertsService.allowed_transition a.status tgt = false →
        AlertsService.update_status now alerts i tgt =
          Except.error (AlertsService.UpdateError.invalid_transition
            (AlertsService.statusName a.status) (AlertsService.statusName tgt)))) ∧
    (∀ src tgt : AlertStatus, AlertsService.allowed_transition src tgt = true ↔
      ((src = AlertStatus.new ∧ (tgt = AlertStatus.triaged ∨ tgt = AlertStatus.investigating ∨
          tgt = AlertStatus.resolved ∨ tgt = AlertStatus.false_positive)) ∨
       (src = AlertStatus.triaged ∧ (tgt = AlertStatus.investigating ∨
          tgt = AlertStatus.resolved ∨ tgt = AlertStatus.false_positive)) ∨
       (src = AlertStatus.investigating ∧ (tgt = AlertStatus.resolved ∨
          tgt = AlertStatus.false_positive)) ∨
       (src = AlertStatus.resolved ∧ tgt = AlertStatus.triaged) ∨
       (src = AlertStatus.false_positive ∧ tgt = AlertStatus.triaged))) := by
  constructor
  · intro a ha
    refine ⟨?_, ?_, ?_, ?_⟩
    · intro hres
      simp [AlertsService.update_status, ha, hres, AlertsService.allowed_transition,
        AlertsService.statusName]
    · intro hres
      refine ⟨{ a with status := AlertStatus.triaged, updated_at := now },
        DetectionService.replaceAlert a.id
          (fun x => { x with status := AlertStatus.triaged, updated_at := now }) alerts,
        ?_, rfl⟩
      simp [AlertsService.update_status, ha, hres, AlertsService.allowed_transition]
    · intro s hs
      simp [AlertsService.update_status, ha, hs]
    · intro tgt hne hallow
      simp [AlertsService.update_status, ha, hne, hallow]
  · intro src tgt
    cases src <;> cases tgt <;> simp [AlertsService.allowed_transition]

/-- Witness for C4: a concrete resolved alert rejects the transition to
investigating with the error naming both states. -/
theorem C4_alert_status_transitions_witness :
    AlertsService.update_status 9
      [{ id := 3, event_id := none, dedup_key := "k", type := "DDoS",
         severity := AlertSeverity.high, source_ip := "a", destination_ip := "b",
         confidence := 0.93, status := AlertStatus.resolved,
         created_at := 1, updated_at := 1 }] 3 AlertStatus.investigating =
      Except.error (AlertsService.UpdateError.invalid_transition
        "resolved" "investigating") :=
  (((C4_alert_status_transitions 9
      [{ id := 3, event_id := none, dedup_key := "k", type := "DDoS",
         severity := AlertSeverity.high, source_ip := "a", destination_ip := "b",
         confidence := 0.93, status := AlertStatus.resolved,
         created_at := 1, updated_at := 1 }] 3).1
    { id := 3, event_id := none, dedup_key := "k", type := "DDoS",
      severity := AlertSeverity.high, source_ip := "a", destination_ip := "b",
      confidence := 0.93, status := AlertStatus.resolved,
      created_at := 1, updated_at := 1 } rfl).1) rfl

/-- C7: CanaryService.enable against a missing artifact, or one lacking
any of model, label_encoder and feature_names, returns the descriptive
error and leaves every configuration field exactly as it was. -/
theorem C7_canary_enable_atomic (M E : Type)
    (fs : String → Option (CanaryArtifact M E)) (resolve stem : String → String)
    (st : CanaryState M E) (model_path : String) (traffic_percent : Int) :
    (fs (resolve model_path) = none →
      CanaryService.enable fs resolve stem st model_path traffic_percent =
        (st, Except.error ("Canary model artifact not found at " ++ resolve model_path))) ∧
    (∀ data, fs (resolve model_path) = some data →
      data.model = none ∨ data.label_encoder = none ∨ data.feature_names = none →
      CanaryService.enable fs resolve stem st model_path traffic_percent =
        (st, Except.error "Invalid canary model artifact format")) ∧
    (∀ e st1, CanaryService.enable fs resolve stem st model_path traffic_percent =
        (st1, Except.error e) →
      st1.enabled = st.enabled ∧ st1.traffic_percent = st.traffic_percent ∧
      st1.model_path = st.model_path ∧ st1.model = st.model ∧
      st1.label_encoder = st.label_encoder ∧ st1.feature_names = st.feature_names ∧
      st1.version = st.version) := by
  have hcases : (∃ st', CanaryService.enable fs resolve stem st model_path traffic_percent
        = (st', Except.ok st')) ∨
      (∃ e, CanaryService.enable fs resolve stem st model_path traffic_percent
        = (st, Except.error e)) := by
    simp only [CanaryService.enable]
    rcases fs (resolve model_path) with _ | data
    · exact Or.inr ⟨_, rfl⟩
    · dsimp only
      rcases data.model with _ | mval
      · exact Or.inr ⟨_, rfl⟩
      · rcases data.label_encoder with _ | encv
        · exact Or.inr ⟨_, rfl⟩
        · rcases data.feature_names with _ | fnv
          · exact Or.inr ⟨_, rfl⟩
          · exact Or.inl ⟨_, rfl⟩
  refine ⟨?_, ?_, ?_⟩
  · intro h
    simp only [CanaryService.enable]
    rw [h]
  · intro data hdata hmiss
    simp only [CanaryService.enable]
    rw [hdata]
    dsimp only
    rcases h1 : data.model with _ | mval
    · rfl
    · rcases h2 : data.label_encoder with _ | encv
      · rfl
      · rcases h3 : data.feature_names with _ | fnv
        · rfl
        · exfalso
          rcases hmiss with h | h | h <;> simp_all
  · intro e st1 heq
    rcases hcases with ⟨st', hok⟩ | ⟨e', herr⟩
    · rw [hok] at heq
      simp only [Prod.mk.injEq] at heq
      exact Except.noConfusion heq.2
    · rw [herr] at heq
      simp only [Prod.mk.injEq] at heq
      obtain ⟨hs, -⟩ := heq
      subst hs
      exact ⟨rfl, rfl, rfl, rfl, rfl, rfl, rfl⟩

/-- Witness for C7: a filesystem with no artifact leaves the disabled
configuration untouched and reports the not-found error. -/
theorem C7_canary_enable_atomic_witness :
    CanaryService.enable
      (fun _ => (none : Option (CanaryArtifact Unit Unit)))
      (fun s => s) (fun s => s)
      { enabled := false, traffic_percent := 0, model_path := none, model := none,
        label_encoder := none, feature_names := none, version := none } "p" 5 =
      ({ enabled := false, traffic_percent := 0, model_path := none, model := none,
         label_encoder := none, feature_names := none, version := none },
       Except.error ("Canary model artifact not found at " ++ "p")) :=
  (C7_canary_enable_atomic Unit Unit (fun _ => none) (fun s => s) (fun s => s)
    { enabled := false, traffic_percent := 0, model_path := none, model := none,
      label_encoder := none, feature_names := none, version := none } "p" 5).1 rfl

/-- C8 counterexample: the claim predicts effective window max(0, 50) = 50
and required_events 100 for a requested window of 0, but the code falls
back to the configured default (here 500) because Python treats 0 as
falsy, reporting required_events 1000. -/
theorem C8_effective_window_counterexample :
    (DriftService.get_drift_report (fun _ _ => 0) (fun x => x) 500 (2/10) [] []
      (some 0)).required_events = some 1000 ∧
    2 * max (0 : Int) 50 = 100 ∧ (1000 : Int) ≠ 100 := by
  refine ⟨rfl, by decide, by decide⟩

/-- C8 amended: for every nonzero requested window the effective window is
max(w, 50) (a requested window of 0, like an absent one, falls back to the
configured default before the 50 floor); whenever fewer than 2 × effective
window prediction labels exist the report is exactly the structured
insufficient_data record — required_events 2 × effective window,
available_events the number of labels found, null scores, no exception. -/
theorem C8_drift_insufficient_data (js : List (String × ℚ) → List (String × ℚ) → ℚ)
    (round6 : ℚ → ℚ) (defaultWindow : Int) (threshold : ℚ)
    (history : List String) (canaryHistory : List Bool) (w : Option Int) :
    (∀ w0 : Int, w0 ≠ 0 → DriftService.effectiveWindow defaultWindow (some w0) = max w0 50) ∧
    (history.length < ((DriftService.effectiveWindow defaultWindow w) * 2).toNat →
      DriftService.get_drift_report js round6 defaultWindow threshold history canaryHistory w =
        { status := "insufficient_data"
          window_events := none
          threshold := none
          required_events := some (DriftService.effectiveWindow defaultWindow w * 2)
          available_events := some (history.length : Int)
          prediction_js_divergence := none
          canary_divergence_rate := none
          current_distribution := none
          baseline_distribution := none }) := by
  constructor
  · intro w0 hw0
    unfold DriftService.effectiveWindow
    have hstep : (if w0 < 50 then (50 : Int) else w0) = max w0 50 := by
      rcases lt_or_le w0 50 with h | h
      · rw [if_pos h, max_eq_right h.le]
      · rw [if_neg (not_lt_of_le h), max_eq_left h]
    simpa [hw0] using hstep
  · intro hlen
    have htake : (history.take ((DriftService.effectiveWindow defaultWindow w) * 2).toNat).length
        = history.length := by
      rw [List.length_take]
      omega
    have hcond : (history.take ((DriftService.effectiveWindow defaultWindow w) * 2).toNat).length
        < ((DriftService.effectiveWindow defaultWindow w) * 2).toNat := by
      omega
    simp only [DriftService.get_drift_report]
    rw [if_pos hcond, htake]

/-- Witness for C8: a requested window of 10 is floored to 50 = max 10 50,
and with no history the report is the insufficient_data record asking for
100 events. -/
theorem C8_drift_insufficient_data_witness :
    DriftService.effectiveWindow 500 (some 10) = max 10 50 ∧
    DriftService.get_drift_report (fun _ _ => 0) (fun x => x) 500 (2/10) [] [] (some 10) =
      { status := "insufficient_data"
        window_events := none
        threshold := none
        required_events := some 100
        available_events := some 0
        prediction_js_divergence := none
        canary_divergence_rate := none
        current_distribution := none
        baseline_distribution := none } :=
  ⟨(C8_drift_insufficient_data (fun _ _ => 0) (fun x => x) 500 (2/10) [] []
      (some 10)).1 10 (by decide),
   (C8_drift_insufficient_data (fun _ _ => 0) (fun x => x) 500 (2/10) [] []
      (some 10)).2 (by decide)⟩

end Centerback
